import Mathlib

set_option maxRecDepth 8000

/-!
Shallow embedding of the payment endpoints of this repository:
`supabase/functions/verify-razorpay-payment/index.ts` (the payment
verification endpoint) and `supabase/functions/create-razorpay-order/index.ts`
(the order-creation endpoint).

Machine integers are modelled as `Nat` with explicit reduction modulo `2^32`
where the source's crypto primitive works on 32-bit words; bytes are `Nat`
values below 256.  JavaScript `undefined` for destructured request fields and
environment lookups is modelled as `Option.none`; JavaScript string coercion
of `undefined` (as happens when a missing field is concatenated into the
signature base string) yields the string "undefined".  The database row
matched by `order_id` is carried explicitly, together with a flag saying
whether the row update reports an error.
-/

/-! ## SHA-256 and HMAC-SHA256 (the `crypto.subtle` primitive used at
`verify-razorpay-payment/index.ts` lines 129-144) -/

/-- Reduce to a 32-bit word. -/
def w32 (n : Nat) : Nat := n % 4294967296

/-- 32-bit right rotation (input assumed below `2^32`). -/
def rotr (n x : Nat) : Nat := w32 ((x >>> n) ||| (x <<< (32 - n)))

def ssig0 (x : Nat) : Nat := (rotr 7 x) ^^^ (rotr 18 x) ^^^ (x >>> 3)

def ssig1 (x : Nat) : Nat := (rotr 17 x) ^^^ (rotr 19 x) ^^^ (x >>> 10)

def bsig0 (x : Nat) : Nat := (rotr 2 x) ^^^ (rotr 13 x) ^^^ (rotr 22 x)

def bsig1 (x : Nat) : Nat := (rotr 6 x) ^^^ (rotr 11 x) ^^^ (rotr 25 x)

def chF (x y z : Nat) : Nat := (x &&& y) ^^^ ((x ^^^ 4294967295) &&& z)

def majF (x y z : Nat) : Nat := (x &&& y) ^^^ (x &&& z) ^^^ (y &&& z)

/-- The 64 SHA-256 round constants (FIPS 180-4 section 4.2.2), in decimal. -/
def shaK : List Nat :=
  [1116352408, 1899447441, 3049323471, 3921009573, 961987163,
   1508970993, 2453635748, 2870763221, 3624381080, 310598401,
   607225278, 1426881987, 1925078388, 2162078206, 2614888103,
   3248222580, 3835390401, 4022224774, 264347078, 604807628,
   770255983, 1249150122, 1555081692, 1996064986, 2554220882,
   2821834349, 2952996808, 3210313671, 3336571891, 3584528711,
   113926993, 338241895, 666307205, 773529912, 1294757372,
   1396182291, 1695183700, 1986661051, 2177026350, 2456956037,
   2730485921, 2820302411, 3259730800, 3345764771, 3516065817,
   3600352804, 4094571909, 275423344, 430227734, 506948616,
   659060556, 883997877, 958139571, 1322822218, 1537002063,
   1747873779, 1955562222, 2024104815, 2227730452, 2361852424,
   2428436474, 2756734187, 3204031479, 3329325298]

structure SHAState where
  a : Nat
  b : Nat
  c : Nat
  d : Nat
  e : Nat
  f : Nat
  g : Nat
  h : Nat
deriving DecidableEq

/-- The initial SHA-256 hash value (FIPS 180-4 section 5.3.3), in decimal. -/
def shaInit : SHAState :=
  ⟨1779033703, 3144134277, 1013904242, 2773480762,
   1359893119, 2600822924, 528734635, 1541459225⟩

/-- Big-endian byte decomposition: `k` bytes of `n`, most significant first. -/
def toBytesBE : Nat → Nat → List Nat
  | 0, _ => []
  | k+1, n => toBytesBE k (n / 256) ++ [n % 256]

/-- Big-endian 4-byte words from a byte list (length a multiple of 4). -/
def bytesToWords : List Nat → List Nat
  | a :: b :: c :: d :: rest => (a * 16777216 + b * 65536 + c * 256 + d) :: bytesToWords rest
  | _ => []

/-- Split into 64-byte blocks.  Fuel-based structural recursion; the fuel
bounds the number of blocks, so `l.length` is always enough. -/
def chunks64Aux : Nat → List Nat → List (List Nat)
  | 0, _ => []
  | _, [] => []
  | fuel+1, x :: rest => ((x :: rest).take 64) :: chunks64Aux fuel ((x :: rest).drop 64)

def chunks64 (l : List Nat) : List (List Nat) := chunks64Aux l.length l

/-- Extend the (reversed, newest-first) message schedule by `n` words. -/
def extendW : Nat → List Nat → List Nat
  | 0, w => w
  | n+1, w =>
    extendW n (w32 (ssig1 (w.getD 1 0) + w.getD 6 0 + ssig0 (w.getD 14 0) + w.getD 15 0) :: w)

/-- The 64-word message schedule of one block (given as 16 words). -/
def schedule (ws : List Nat) : List Nat := (extendW 48 ws.reverse).reverse

def compressStep (s : SHAState) (kw : Nat × Nat) : SHAState :=
  let t1 := w32 (s.h + bsig1 s.e + chF s.e s.f s.g + kw.1 + kw.2)
  let t2 := w32 (bsig0 s.a + majF s.a s.b s.c)
  ⟨w32 (t1 + t2), s.a, s.b, s.c, w32 (s.d + t1), s.e, s.f, s.g⟩

def processBlock (h : SHAState) (block : List Nat) : SHAState :=
  let ws := schedule (bytesToWords block)
  let s := (shaK.zip ws).foldl compressStep h
  ⟨w32 (h.a + s.a), w32 (h.b + s.b), w32 (h.c + s.c), w32 (h.d + s.d),
   w32 (h.e + s.e), w32 (h.f + s.f), w32 (h.g + s.g), w32 (h.h + s.h)⟩

/-- SHA-256 padding of a message given as bytes. -/
def shaPad (msg : List Nat) : List Nat :=
  msg ++ [128] ++ List.replicate ((119 - msg.length % 64) % 64) 0 ++ toBytesBE 8 (8 * msg.length)

/-- SHA-256 of a byte list, as a 32-byte list. -/
def sha256 (msg : List Nat) : List Nat :=
  let s := (chunks64 (shaPad msg)).foldl processBlock shaInit
  toBytesBE 4 s.a ++ toBytesBE 4 s.b ++ toBytesBE 4 s.c ++ toBytesBE 4 s.d ++
  toBytesBE 4 s.e ++ toBytesBE 4 s.f ++ toBytesBE 4 s.g ++ toBytesBE 4 s.h

/-- HMAC-SHA256 (block size 64) of a message with a key, both byte lists. -/
def hmacSha256 (key msg : List Nat) : List Nat :=
  let k0 := if 64 < key.length then sha256 key else key
  let k1 := k0 ++ List.replicate (64 - k0.length) 0
  sha256 ((k1.map (fun b => b ^^^ 92)) ++ sha256 ((k1.map (fun b => b ^^^ 54)) ++ msg))

/-- UTF-8 encoding of one character (the `TextEncoder` of the source). -/
def utf8Char (c : Char) : List Nat :=
  let n := c.toNat
  if n < 128 then [n]
  else if n < 2048 then [192 + n / 64, 128 + n % 64]
  else if n < 65536 then [224 + n / 4096, 128 + (n / 64) % 64, 128 + n % 64]
  else [240 + n / 262144, 128 + (n / 4096) % 64, 128 + (n / 64) % 64, 128 + n % 64]

/-- UTF-8 bytes of a string. -/
def utf8Bytes (s : String) : List Nat := (s.data.map utf8Char).flatten

/- SHA-256 and HMAC-SHA256 known-answer sanity checks (FIPS 180-4 / RFC 4231
style vectors, digests computed with an independent implementation). -/

example : sha256 (utf8Bytes "abc") =
    [0xba, 0x78, 0x16, 0xbf, 0x8f, 0x01, 0xcf, 0xea, 0x41, 0x41, 0x40, 0xde, 0x5d, 0xae, 0x22,
     0x23, 0xb0, 0x03, 0x61, 0xa3, 0x96, 0x17, 0x7a, 0x9c, 0xb4, 0x10, 0xff, 0x61, 0xf2, 0x00,
     0x15, 0xad] := by decide

example : hmacSha256 (utf8Bytes "secret") (utf8Bytes "oid|pid") =
    [0x36, 0xa8, 0xa7, 0xc5, 0x91, 0x29, 0xc4, 0x13, 0x65, 0xb2, 0x54, 0x8e, 0x44, 0x06, 0x91,
     0x74, 0xdc, 0x89, 0x02, 0x16, 0xc4, 0x88, 0xe6, 0x00, 0x31, 0x60, 0x64, 0xf4, 0x35, 0xbf,
     0xb9, 0x3d] := by decide

/-! ## Hex encoding

The source encodes the digest with
`Array.from(new Uint8Array(signature)).map(b => b.toString(16).padStart(2, '0')).join('')`
(`verify-razorpay-payment/index.ts` lines 142-144). -/

/-- Lowercase hexadecimal digit character for `d < 16`. -/
def hexDigit (d : Nat) : Char :=
  if d < 10 then Char.ofNat (48 + d) else Char.ofNat (87 + d)

/-- JavaScript `Number.prototype.toString(16)` for naturals: most significant
digit first, lowercase, `"0"` for zero.  Fuel-based structural recursion;
fuel `n + 1` always suffices. -/
def natToHexAux : Nat → Nat → List Char
  | 0, _ => []
  | fuel+1, n => if n < 16 then [hexDigit n] else natToHexAux fuel (n / 16) ++ [hexDigit (n % 16)]

def natToHexList (n : Nat) : List Char := natToHexAux (n + 1) n

/-- JavaScript `String.prototype.padStart(2, '0')` on a character list. -/
def padStart2 (s : List Char) : List Char := List.replicate (2 - s.length) '0' ++ s

/-- The source's hex encoding of a byte list:
`bytes.map(b => b.toString(16).padStart(2, '0')).join('')`. -/
def jsHexEncode (bytes : List Nat) : String :=
  ⟨(bytes.map (fun b => padStart2 (natToHexList b))).flatten⟩

/-- Written from the spec's words, for comparison with `jsHexEncode`: each
byte becomes exactly two lowercase hexadecimal digit characters, high nibble
first. -/
def specHexLowercase (bytes : List Nat) : String :=
  ⟨(bytes.map (fun b => [hexDigit (b / 16), hexDigit (b % 16)])).flatten⟩

/-! ## The verification endpoint model
(`supabase/functions/verify-razorpay-payment/index.ts`) -/

/-- The destructured request body (line 16).  A missing field destructures to
`undefined`, modelled as `none`. -/
structure VerifyRequest where
  razorpay_order_id : Option String
  razorpay_payment_id : Option String
  razorpay_signature : Option String
  order_id : Option String
deriving DecidableEq

/-- JavaScript string coercion as used in `razorpay_order_id + "|" + razorpay_payment_id`
(line 126): `undefined` coerces to the string "undefined". -/
def jsToString (o : Option String) : String := o.getD "undefined"

/-- JavaScript truthiness of a possibly-`undefined` string: `undefined` and
`""` are falsy. -/
def jsTruthy (o : Option String) : Bool :=
  match o with
  | none => false
  | some s => !(s == "")

/-- Outcome of `fetch` on the gateway status API (lines 49-57): a 2xx response
carrying a payment status, a non-2xx response (`paymentResponse.ok` false), or
a thrown network error (caught at line 120). -/
inductive ProbeOutcome where
  | ok (status : String)
  | httpError
  | networkError
deriving DecidableEq

/-- The order row matched by `order_id`. -/
structure OrderRow where
  status : String
  payment_method : Option String
  updated_at : String
deriving DecidableEq

/-- The runtime environment (`Deno.env`) of the verification endpoint. -/
structure VerifyEnv where
  razorpayKeySecret : Option String
  razorpayKeyId : Option String
  supabaseUrl : Option String
  supabaseServiceKey : Option String
deriving DecidableEq

/-- One request's external world: environment, the gateway probe's outcome,
the order row matched by the request's `order_id` (if any), whether the
`orders` update reports an error, and the value of `new Date().toISOString()`. -/
structure World where
  env : VerifyEnv
  probe : ProbeOutcome
  row : Option OrderRow
  dbUpdateFails : Bool
  now : String
deriving DecidableEq

/-- The JSON response, restricted to the fields the source ever sets.
`none` models a field absent from the body (JSON.stringify drops
`undefined`-valued fields). -/
structure HttpResponse where
  status : Nat
  success : Bool
  error : Option String
  payment_id : Option String
  order_id : Option String
  payment_status : Option String
  note : Option String
  message : Option String
deriving DecidableEq

/-- Which externally visible actions the handler performed. -/
structure Effects where
  probeAttempted : Bool
  signatureCompared : Bool
  updateAttempted : Bool
deriving DecidableEq

def noEffects : Effects := ⟨false, false, false⟩

/-- Handler result: response, resulting order row, performed effects. -/
structure Outcome where
  resp : HttpResponse
  row : Option OrderRow
  fx : Effects
deriving DecidableEq

/-- Lines 28-34: missing `RAZORPAY_KEY_SECRET`. -/
def configErrorResponse : HttpResponse :=
  ⟨500, false, some "Payment service configuration error", none, none, none, none, none⟩

/-- Lines 233-242: the catch-all error response. -/
def catchAllErrorResponse : HttpResponse :=
  ⟨500, false, some "Payment verification failed", none, none, none, none, none⟩

/-- Lines 82-93: success response in the captured/authorized branch. -/
def capturedSuccessResponse (r : VerifyRequest) (st : String) : HttpResponse :=
  ⟨200, true, none, r.razorpay_payment_id, r.order_id, some st, none,
   some "Payment verified successfully via Razorpay API"⟩

/-- Lines 106-117: failure response when the gateway reports `failed`. -/
def gatewayFailedResponse (r : VerifyRequest) (st : String) : HttpResponse :=
  ⟨400, false, some "Payment failed according to Razorpay", r.razorpay_payment_id, r.order_id,
   some st, none, none⟩

/-- Lines 169-180: failure response on signature mismatch. -/
def sigMismatchResponse (r : VerifyRequest) : HttpResponse :=
  ⟨400, false, some "Payment signature verification failed", r.razorpay_payment_id, r.order_id,
   none, some "If money was debited, please contact support with this payment ID", none⟩

/-- Lines 200-210: the fallback branch's update failed after the signature
matched. -/
def persistenceErrorResponse (r : VerifyRequest) : HttpResponse :=
  ⟨500, false, some "Failed to update order status", r.razorpay_payment_id, none, none, none, none⟩

/-- Lines 219-228: success response in the signature-fallback branch. -/
def fallbackSuccessResponse (r : VerifyRequest) : HttpResponse :=
  ⟨200, true, none, r.razorpay_payment_id, r.order_id, none, none,
   some "Payment verified successfully"⟩

/-- The `update` payload setting `status: 'confirmed', payment_method: 'Razorpay',
updated_at` (lines 66-74 and 188-196). -/
def confirmUpdate (now : String) (o : OrderRow) : OrderRow :=
  { o with status := "confirmed", payment_method := some "Razorpay", updated_at := now }

/-- The `update` payload setting `status: 'failed', updated_at` (lines 98-104
and 161-167). -/
def failUpdate (now : String) (o : OrderRow) : OrderRow :=
  { o with status := "failed", updated_at := now }

/-- Effect of a row update on the matched row: if the update reports an error
nothing is written; otherwise the matched row (when it exists) is rewritten.
The `.eq('id', order_id)` filter never consults the row's current status. -/
def applyUpdate (w : World) (f : OrderRow → OrderRow) : Option OrderRow :=
  if w.dbUpdateFails then w.row else w.row.map f

/-- The expected signature of the fallback branch (lines 126-144): lowercase
hex of HMAC-SHA256 over the UTF-8 bytes of `"{order id}|{payment id}"`, keyed
by the secret. -/
def expectedSignature (secret oidS pidS : String) : String :=
  jsHexEncode (hmacSha256 (utf8Bytes secret) (utf8Bytes (oidS ++ "|" ++ pidS)))

/-- The comparison `expectedSignature !== razorpay_signature` (line 151),
phrased as acceptance: the claimed signature is a defined string strictly
equal to the expected one. -/
def signatureAccepts (secret : String) (r : VerifyRequest) : Bool :=
  r.razorpay_signature ==
    some (expectedSignature secret (jsToString r.razorpay_order_id)
      (jsToString r.razorpay_payment_id))

/-- Lines 125-229: the signature-verification fallback.  On mismatch the
`failed` update's outcome is ignored (lines 161-167: no error destructuring);
on match an update error yields the distinct 500 (lines 198-211), otherwise
success (lines 219-229). -/
def fallbackVerify (secret : String) (r : VerifyRequest) (w : World) : Outcome :=
  if !(signatureAccepts secret r) then
    ⟨sigMismatchResponse r, applyUpdate w (failUpdate w.now), ⟨true, true, true⟩⟩
  else if w.dbUpdateFails then
    ⟨persistenceErrorResponse r, w.row, ⟨true, true, true⟩⟩
  else
    ⟨fallbackSuccessResponse r, w.row.map (confirmUpdate w.now), ⟨true, true, true⟩⟩

/-- The verification endpoint (lines 10-244).  `req = none` models a body that
fails to parse (the `await req.json()` throw lands in the catch-all at lines
231-243).  `createClient` with a falsy URL or service key throws, also landing
in the catch-all, before the probe.  `RAZORPAY_KEY_ID` (line 43) is read but
never checked; it only feeds the probe's basic-auth header, so it does not
appear in the model's control flow.  In the captured/authorized branch an
update error is logged and ignored (lines 76-80) and success is returned
regardless; in the gateway-`failed` branch the update outcome is likewise
ignored (lines 98-104). -/
def verifyHandler (req : Option VerifyRequest) (w : World) : Outcome :=
  match req with
  | none => ⟨catchAllErrorResponse, w.row, noEffects⟩
  | some r =>
    if !(jsTruthy w.env.razorpayKeySecret) then
      ⟨configErrorResponse, w.row, noEffects⟩
    else if !(jsTruthy w.env.supabaseUrl) || !(jsTruthy w.env.supabaseServiceKey) then
      ⟨catchAllErrorResponse, w.row, noEffects⟩
    else
      let secret := w.env.razorpayKeySecret.getD ""
      match w.probe with
      | .ok st =>
        if st == "captured" || st == "authorized" then
          ⟨capturedSuccessResponse r st, applyUpdate w (confirmUpdate w.now), ⟨true, false, true⟩⟩
        else if st == "failed" then
          ⟨gatewayFailedResponse r st, applyUpdate w (failUpdate w.now), ⟨true, false, true⟩⟩
        else
          fallbackVerify secret r w
      | .httpError => fallbackVerify secret r w
      | .networkError => fallbackVerify secret r w

/-- A probe outcome that is neither a definitive `captured`/`authorized` nor a
definitive `failed`: unavailable (non-2xx or thrown) or an
ambiguous/pending status.  Exactly the condition under which control reaches
the fallback (lines 119-125). -/
def probeInconclusive : ProbeOutcome → Bool
  | .ok st => !(st == "captured" || st == "authorized" || st == "failed")
  | .httpError => true
  | .networkError => true

/-! ## The order-creation endpoint model
(`supabase/functions/create-razorpay-order/index.ts`) -/

structure CreateEnv where
  razorpayKeyId : Option String
  razorpayKeySecret : Option String
deriving DecidableEq

structure CreateOutcome where
  status : Nat
  error : Option String
  orderCreated : Bool
deriving DecidableEq

/-- JavaScript falsiness of a possibly-`undefined` number (`!amount`,
line 20): `undefined` and `0` are falsy. -/
def jsFalsyNum (o : Option Int) : Bool :=
  match o with
  | none => true
  | some v => v == 0

/-- JavaScript `amount <= 0` (line 20): comparison with `undefined` is false. -/
def jsLeZero (o : Option Int) : Bool :=
  match o with
  | none => false
  | some v => decide (v ≤ 0)

/-- The order-creation endpoint (lines 10-95), with the gateway's
`orders.create` call abstracted to a flag saying whether it throws. -/
def createOrderHandler (amount : Option Int) (env : CreateEnv) (gatewayFails : Bool) :
    CreateOutcome :=
  if jsFalsyNum amount || jsLeZero amount then
    ⟨400, some "Invalid amount", false⟩
  else if !(jsTruthy env.razorpayKeyId) || !(jsTruthy env.razorpayKeySecret) then
    ⟨500, some "Payment service configuration error", false⟩
  else if gatewayFails then
    ⟨500, some "Failed to create payment order", false⟩
  else
    ⟨200, none, true⟩

/-! ## Shape lemmas for the digest and its hex encoding -/

theorem toBytesBE_length (k n : Nat) : (toBytesBE k n).length = k := by
  induction k generalizing n with
  | zero => rfl
  | succ k ih => simp [toBytesBE, ih]

theorem toBytesBE_lt (k n : Nat) : ∀ b ∈ toBytesBE k n, b < 256 := by
  induction k generalizing n with
  | zero => simp [toBytesBE]
  | succ k ih =>
    intro b hb
    simp only [toBytesBE, List.mem_append, List.mem_singleton] at hb
    rcases hb with hb | hb
    · exact ih _ b hb
    · subst hb
      exact Nat.mod_lt n (by norm_num)

theorem sha256_length (msg : List Nat) : (sha256 msg).length = 32 := by
  simp [sha256, toBytesBE_length]

theorem sha256_lt (msg : List Nat) : ∀ b ∈ sha256 msg, b < 256 := by
  intro b hb
  simp only [sha256, List.mem_append] at hb
  rcases hb with ((((((hb | hb) | hb) | hb) | hb) | hb) | hb) | hb <;>
    exact toBytesBE_lt _ _ b hb

theorem hmacSha256_lt (key msg : List Nat) : ∀ b ∈ hmacSha256 key msg, b < 256 := by
  intro b hb
  simp only [hmacSha256] at hb
  exact sha256_lt _ b hb

theorem hmacSha256_length (key msg : List Nat) : (hmacSha256 key msg).length = 32 := by
  simp only [hmacSha256]
  exact sha256_length _

/-- The sixteen characters the hex encoder can produce: the image of
`hexDigit` on digits below sixteen. -/
def lowerHexChars : List Char := (List.range 16).map hexDigit

theorem hexDigit_mem : ∀ d < 16, hexDigit d ∈ lowerHexChars := by decide

theorem lowerHex_not_upper : ∀ c ∈ lowerHexChars, c.isUpper = false := by decide

theorem natToHexAux_small (fuel n : Nat) (hf : 0 < fuel) (h : n < 16) :
    natToHexAux fuel n = [hexDigit n] := by
  cases fuel with
  | zero => omega
  | succ f => simp [natToHexAux, h]

/-- For a byte, the source's `b.toString(16).padStart(2, '0')` is exactly the
two lowercase hex digits, high nibble first. -/
theorem hexByte_pair (b : Nat) (hb : b < 256) :
    padStart2 (natToHexList b) = [hexDigit (b / 16), hexDigit (b % 16)] := by
  by_cases h : b < 16
  · have h16 : b / 16 = 0 := Nat.div_eq_of_lt h
    have hm : b % 16 = b := Nat.mod_eq_of_lt h
    rw [h16, hm, natToHexList, natToHexAux_small _ _ (by omega) h]
    simp [padStart2]
    rfl
  · have hq : b / 16 < 16 := by omega
    have hstep : natToHexList b = natToHexAux b (b / 16) ++ [hexDigit (b % 16)] := by
      simp [natToHexList, natToHexAux, h]
    rw [hstep, natToHexAux_small _ _ (by omega) hq]
    simp [padStart2]

theorem jsHexEncode_eq_spec (bytes : List Nat) (hb : ∀ b ∈ bytes, b < 256) :
    jsHexEncode bytes = specHexLowercase bytes := by
  unfold jsHexEncode specHexLowercase
  congr 1
  induction bytes with
  | nil => rfl
  | cons b t ih =>
    simp only [List.map_cons, List.flatten_cons]
    rw [hexByte_pair b (hb b (by simp)), ih (fun x hx => hb x (by simp [hx]))]

/-- The signature the fallback branch compares against is exactly the spec's
lowercase-hex HMAC-SHA256 of `"{order id}|{payment id}"` keyed by the secret. -/
theorem expectedSignature_eq_spec (secret oidS pidS : String) :
    expectedSignature secret oidS pidS =
      specHexLowercase (hmacSha256 (utf8Bytes secret) (utf8Bytes (oidS ++ "|" ++ pidS))) :=
  jsHexEncode_eq_spec _ (hmacSha256_lt _ _)

theorem specHexLowercase_data (bytes : List Nat) :
    (specHexLowercase bytes).data =
      (bytes.map (fun b => [hexDigit (b / 16), hexDigit (b % 16)])).flatten := rfl

theorem hexPairs_length (bytes : List Nat) :
    ((bytes.map (fun b => [hexDigit (b / 16), hexDigit (b % 16)])).flatten).length
      = 2 * bytes.length := by
  induction bytes with
  | nil => rfl
  | cons b t ih =>
    simp only [List.map_cons, List.flatten_cons, List.length_append, ih, List.length_cons,
      List.length_nil]
    omega

theorem expectedSignature_length (secret oidS pidS : String) :
    (expectedSignature secret oidS pidS).length = 64 := by
  have h := hexPairs_length (hmacSha256 (utf8Bytes secret) (utf8Bytes (oidS ++ "|" ++ pidS)))
  rw [hmacSha256_length] at h
  rw [expectedSignature_eq_spec]
  show (specHexLowercase
    (hmacSha256 (utf8Bytes secret) (utf8Bytes (oidS ++ "|" ++ pidS)))).data.length = 64
  rw [specHexLowercase_data]
  omega

theorem expectedSignature_chars (secret oidS pidS : String) :
    ∀ c ∈ (expectedSignature secret oidS pidS).data, c ∈ lowerHexChars := by
  rw [expectedSignature_eq_spec]
  intro c hc
  rw [specHexLowercase_data] at hc
  simp only [List.mem_flatten, List.mem_map] at hc
  obtain ⟨l, ⟨b, hb, rfl⟩, hcl⟩ := hc
  have hb256 : b < 256 := hmacSha256_lt _ _ b hb
  simp only [List.mem_cons, List.mem_singleton] at hcl
  rcases hcl with rfl | rfl | h
  · exact hexDigit_mem _ (by omega)
  · exact hexDigit_mem _ (Nat.mod_lt b (by norm_num))
  · cases h

/-! ## Branch lemmas for the verification handler -/

theorem jsTruthy_some {s : String} (h : s ≠ "") : jsTruthy (some s) = true := by
  simp [jsTruthy, h]

theorem verifyHandler_env_ok (w : World) (r : VerifyRequest) (secret : String)
    (hs : w.env.razorpayKeySecret = some secret) (hs' : secret ≠ "")
    (hu : jsTruthy w.env.supabaseUrl = true) (hk : jsTruthy w.env.supabaseServiceKey = true) :
    verifyHandler (some r) w =
      match w.probe with
      | .ok st =>
        if st == "captured" || st == "authorized" then
          ⟨capturedSuccessResponse r st, applyUpdate w (confirmUpdate w.now), ⟨true, false, true⟩⟩
        else if st == "failed" then
          ⟨gatewayFailedResponse r st, applyUpdate w (failUpdate w.now), ⟨true, false, true⟩⟩
        else
          fallbackVerify secret r w
      | .httpError => fallbackVerify secret r w
      | .networkError => fallbackVerify secret r w := by
  unfold verifyHandler
  rw [hs, jsTruthy_some hs', hu, hk]
  rfl

theorem verifyHandler_captured (w : World) (r : VerifyRequest) (secret st : String)
    (hs : w.env.razorpayKeySecret = some secret) (hs' : secret ≠ "")
    (hu : jsTruthy w.env.supabaseUrl = true) (hk : jsTruthy w.env.supabaseServiceKey = true)
    (hp : w.probe = ProbeOutcome.ok st) (hst : st = "captured" ∨ st = "authorized") :
    verifyHandler (some r) w =
      ⟨capturedSuccessResponse r st, applyUpdate w (confirmUpdate w.now), ⟨true, false, true⟩⟩ := by
  rw [verifyHandler_env_ok w r secret hs hs' hu hk, hp]
  rcases hst with h | h <;> subst h <;> rfl

theorem verifyHandler_gatewayFailed (w : World) (r : VerifyRequest) (secret : String)
    (hs : w.env.razorpayKeySecret = some secret) (hs' : secret ≠ "")
    (hu : jsTruthy w.env.supabaseUrl = true) (hk : jsTruthy w.env.supabaseServiceKey = true)
    (hp : w.probe = ProbeOutcome.ok "failed") :
    verifyHandler (some r) w =
      ⟨gatewayFailedResponse r "failed", applyUpdate w (failUpdate w.now), ⟨true, false, true⟩⟩ := by
  rw [verifyHandler_env_ok w r secret hs hs' hu hk, hp]
  rfl

theorem verifyHandler_fallback (w : World) (r : VerifyRequest) (secret : String)
    (hs : w.env.razorpayKeySecret = some secret) (hs' : secret ≠ "")
    (hu : jsTruthy w.env.supabaseUrl = true) (hk : jsTruthy w.env.supabaseServiceKey = true)
    (hp : probeInconclusive w.probe = true) :
    verifyHandler (some r) w = fallbackVerify secret r w := by
  rw [verifyHandler_env_ok w r secret hs hs' hu hk]
  cases hpr : w.probe with
  | ok st =>
    rw [hpr] at hp
    simp only [probeInconclusive, Bool.not_eq_true', Bool.or_eq_false_iff] at hp
    simp [hp.1.1, hp.1.2, hp.2]
  | httpError => rfl
  | networkError => rfl

theorem fallbackVerify_fx (secret : String) (r : VerifyRequest) (w : World) :
    (fallbackVerify secret r w).fx = ⟨true, true, true⟩ := by
  unfold fallbackVerify
  split
  · rfl
  · split <;> rfl

/-! ## Concrete fixtures used by counterexamples and witnesses -/

def reqA : VerifyRequest := ⟨some "ord_A", some "pay_A", some "sig_A", some "loc_A"⟩

def reqNoSig : VerifyRequest := ⟨some "ord_A", some "pay_A", none, some "loc_A"⟩

def reqAllMissing : VerifyRequest := ⟨none, none, none, none⟩

def reqMatching : VerifyRequest :=
  ⟨some "ord_A", some "pay_A", some (expectedSignature "k" "ord_A" "pay_A"), some "loc_A"⟩

def envOK : VerifyEnv := ⟨some "k", some "id", some "url", some "svc"⟩

def envNoSecret : VerifyEnv := ⟨none, some "id", some "url", some "svc"⟩

def envNoKeyId : VerifyEnv := ⟨some "k", none, some "url", some "svc"⟩

def envNoUrl : VerifyEnv := ⟨some "k", some "id", none, some "svc"⟩

def rowFailedT0 : OrderRow := ⟨"failed", none, "t0"⟩

def rowPendingT0 : OrderRow := ⟨"pending", none, "t0"⟩

def wTerminalCaptured : World := ⟨envOK, .ok "captured", some rowFailedT0, false, "t1"⟩

def wPendingCaptured : World := ⟨envOK, .ok "captured", some rowPendingT0, false, "t1"⟩

def wCapturedDbFail : World := ⟨envOK, .ok "captured", some rowPendingT0, true, "t1"⟩

def wInconclusive : World := ⟨envOK, .httpError, some rowPendingT0, false, "t1"⟩

def wInconclusiveDbFail : World := ⟨envOK, .httpError, some rowPendingT0, true, "t1"⟩

def wGatewayFailed : World := ⟨envOK, .ok "failed", some rowPendingT0, false, "t1"⟩

def wNoSecret : World := ⟨envNoSecret, .ok "captured", some rowPendingT0, false, "t1"⟩

def wNoKeyId : World := ⟨envNoKeyId, .httpError, some rowPendingT0, false, "t1"⟩

def wNoUrl : World := ⟨envNoUrl, .ok "captured", some rowPendingT0, false, "t1"⟩

def wAmbiguous : World := ⟨envOK, .ok "created", some rowPendingT0, false, "t1"⟩

/-! ## C1 -/

/-- Claim C1 is false on the code: an order whose stored status is already
terminal (`failed`) is overwritten to `confirmed` by a verification call whose
gateway probe reports `captured` — the update at lines 66-74 is keyed only on
`order_id` and never consults the current status. -/
theorem c1_terminal_overwritten_cex :
    wTerminalCaptured.row = some rowFailedT0 ∧
    rowFailedT0.status = "failed" ∧
    (verifyHandler (some reqA) wTerminalCaptured).row =
      some ⟨"confirmed", some "Razorpay", "t1"⟩ := by
  decide

/-- Claim C1 (amended): the verification endpoint does not preserve terminal
states; every update is unconditional on the stored status, so whatever the
current status (in particular `failed` or `confirmed`), a captured probe
rewrites the row to `confirmed` and a failed probe rewrites it to `failed`. -/
theorem c1_update_ignores_prior_status (w : World) (r : VerifyRequest) (o : OrderRow)
    (secret : String)
    (hs : w.env.razorpayKeySecret = some secret) (hs' : secret ≠ "")
    (hu : jsTruthy w.env.supabaseUrl = true) (hk : jsTruthy w.env.supabaseServiceKey = true)
    (hrow : w.row = some o) (hdb : w.dbUpdateFails = false) :
    (w.probe = ProbeOutcome.ok "captured" →
      (verifyHandler (some r) w).row = some { o with
        status := "confirmed", payment_method := some "Razorpay", updated_at := w.now }) ∧
    (w.probe = ProbeOutcome.ok "failed" →
      (verifyHandler (some r) w).row = some { o with
        status := "failed", updated_at := w.now }) := by
  constructor
  · intro hp
    rw [verifyHandler_captured w r secret "captured" hs hs' hu hk hp (Or.inl rfl)]
    simp [applyUpdate, hdb, hrow, confirmUpdate]
  · intro hp
    rw [verifyHandler_gatewayFailed w r secret hs hs' hu hk hp]
    simp [applyUpdate, hdb, hrow, failUpdate]

/-- Witness for C1's amended theorem at a concrete terminal-state order. -/
theorem c1_update_ignores_prior_status_witness :
    (verifyHandler (some reqA) wTerminalCaptured).row =
      some { rowFailedT0 with
        status := "confirmed", payment_method := some "Razorpay", updated_at := "t1" } :=
  (c1_update_ignores_prior_status wTerminalCaptured reqA rowFailedT0 "k"
    rfl (by decide) rfl rfl rfl rfl).1 rfl

/-! ## C2 -/

/-- Claim C2 is false on the code: in the captured branch the update error is
only logged (lines 76-80), so when the database update fails the endpoint
still answers `{success: true}` with HTTP 200 while the order row keeps its
previous (non-`confirmed`) state. -/
theorem c2_success_without_persistence_cex :
    (verifyHandler (some reqA) wCapturedDbFail).resp.success = true ∧
    (verifyHandler (some reqA) wCapturedDbFail).resp.status = 200 ∧
    (verifyHandler (some reqA) wCapturedDbFail).row = some rowPendingT0 ∧
    rowPendingT0.status = "pending" := by
  decide

/-- Claim C2 (amended): only the signature-fallback confirm branch reports the
distinct HTTP 500 persistence error when the order update fails (lines
198-211); in the gateway-captured branch an update failure leaves the row
unchanged yet the endpoint still reports success. -/
theorem c2_persistence_error_fallback_only (w : World) (r : VerifyRequest) (secret : String)
    (hs : w.env.razorpayKeySecret = some secret) (hs' : secret ≠ "")
    (hu : jsTruthy w.env.supabaseUrl = true) (hk : jsTruthy w.env.supabaseServiceKey = true)
    (hdb : w.dbUpdateFails = true) :
    (probeInconclusive w.probe = true → signatureAccepts secret r = true →
      verifyHandler (some r) w =
        ⟨persistenceErrorResponse r, w.row, ⟨true, true, true⟩⟩) ∧
    (w.probe = ProbeOutcome.ok "captured" →
      (verifyHandler (some r) w).resp.success = true ∧
      (verifyHandler (some r) w).resp.status = 200 ∧
      (verifyHandler (some r) w).row = w.row) := by
  constructor
  · intro hp hsig
    rw [verifyHandler_fallback w r secret hs hs' hu hk hp]
    unfold fallbackVerify
    rw [hsig, hdb]
    rfl
  · intro hp
    rw [verifyHandler_captured w r secret "captured" hs hs' hu hk hp (Or.inl rfl)]
    simp [applyUpdate, hdb, capturedSuccessResponse]

/-- Witness for C2's amended theorem: a matching signature in the fallback
branch with a failing update yields the distinct 500 persistence error. -/
theorem c2_persistence_error_fallback_only_witness :
    verifyHandler (some reqMatching) wInconclusiveDbFail =
      ⟨persistenceErrorResponse reqMatching, some rowPendingT0, ⟨true, true, true⟩⟩ :=
  (c2_persistence_error_fallback_only wInconclusiveDbFail reqMatching "k"
    rfl (by decide) rfl rfl rfl).1 rfl (by simp [signatureAccepts, reqMatching, jsToString])

/-! ## C3 -/

/-- Claim C3: when the gateway probe succeeds with status `captured` or
`authorized` (and the order row exists and its update succeeds), the endpoint
rewrites the row to `confirmed` with payment method `Razorpay` and the fresh
timestamp, answers HTTP 200 `{success: true}` with the gateway status
attached, and never performs the signature comparison. -/
theorem c3_captured_branch (w : World) (r : VerifyRequest) (o : OrderRow) (secret st : String)
    (hs : w.env.razorpayKeySecret = some secret) (hs' : secret ≠ "")
    (hu : jsTruthy w.env.supabaseUrl = true) (hk : jsTruthy w.env.supabaseServiceKey = true)
    (hp : w.probe = ProbeOutcome.ok st) (hst : st = "captured" ∨ st = "authorized")
    (hrow : w.row = some o) (hdb : w.dbUpdateFails = false) :
    (verifyHandler (some r) w).row = some { o with
      status := "confirmed", payment_method := some "Razorpay", updated_at := w.now } ∧
    (verifyHandler (some r) w).resp.success = true ∧
    (verifyHandler (some r) w).resp.status = 200 ∧
    (verifyHandler (some r) w).resp.payment_status = some st ∧
    (verifyHandler (some r) w).fx.signatureCompared = false := by
  rw [verifyHandler_captured w r secret st hs hs' hu hk hp hst]
  simp [applyUpdate, hdb, hrow, confirmUpdate, capturedSuccessResponse]

/-- Witness for C3 at a concrete captured payment. -/
theorem c3_captured_branch_witness :
    (verifyHandler (some reqA) wPendingCaptured).row =
      some { rowPendingT0 with
        status := "confirmed", payment_method := some "Razorpay", updated_at := "t1" } ∧
    (verifyHandler (some reqA) wPendingCaptured).resp.success = true :=
  ⟨(c3_captured_branch wPendingCaptured reqA rowPendingT0 "k" "captured"
      rfl (by decide) rfl rfl rfl (Or.inl rfl) rfl rfl).1,
   (c3_captured_branch wPendingCaptured reqA rowPendingT0 "k" "captured"
      rfl (by decide) rfl rfl rfl (Or.inl rfl) rfl rfl).2.1⟩

/-! ## C4 -/

/-- Claim C4: when the gateway probe is unavailable or inconclusive and the
supplied signature differs from the computed HMAC signature (and the order row
exists and its update succeeds), the endpoint rewrites the row to `failed` and
answers HTTP 400 with the gateway payment id in the body. -/
theorem c4_signature_mismatch (w : World) (r : VerifyRequest) (o : OrderRow)
    (secret pid : String)
    (hs : w.env.razorpayKeySecret = some secret) (hs' : secret ≠ "")
    (hu : jsTruthy w.env.supabaseUrl = true) (hk : jsTruthy w.env.supabaseServiceKey = true)
    (hp : probeInconclusive w.probe = true)
    (hsig : signatureAccepts secret r = false)
    (hpid : r.razorpay_payment_id = some pid)
    (hrow : w.row = some o) (hdb : w.dbUpdateFails = false) :
    (verifyHandler (some r) w).row = some { o with
      status := "failed", updated_at := w.now } ∧
    (verifyHandler (some r) w).resp.status = 400 ∧
    (verifyHandler (some r) w).resp.payment_id = some pid ∧
    (verifyHandler (some r) w).resp.success = false := by
  rw [verifyHandler_fallback w r secret hs hs' hu hk hp]
  unfold fallbackVerify
  rw [hsig]
  simp [applyUpdate, hdb, hrow, failUpdate, sigMismatchResponse, hpid]

/-- Witness for C4: probe unreachable and a missing (hence mismatching)
signature on a concrete pending order. -/
theorem c4_signature_mismatch_witness :
    (verifyHandler (some reqNoSig) wInconclusive).row = some { rowPendingT0 with
      status := "failed", updated_at := "t1" } ∧
    (verifyHandler (some reqNoSig) wInconclusive).resp.status = 400 ∧
    (verifyHandler (some reqNoSig) wInconclusive).resp.payment_id = some "pay_A" :=
  ⟨(c4_signature_mismatch wInconclusive reqNoSig rowPendingT0 "k" "pay_A"
      rfl (by decide) rfl rfl rfl rfl rfl rfl rfl).1,
   (c4_signature_mismatch wInconclusive reqNoSig rowPendingT0 "k" "pay_A"
      rfl (by decide) rfl rfl rfl rfl rfl rfl rfl).2.1,
   (c4_signature_mismatch wInconclusive reqNoSig rowPendingT0 "k" "pay_A"
      rfl (by decide) rfl rfl rfl rfl rfl rfl rfl).2.2.1⟩

/-! ## C5 -/

/-- Claim C5: the fallback signature comparison accepts exactly when the
claimed signature is the lowercase hexadecimal encoding of the HMAC-SHA256
digest of the UTF-8 bytes of `"{gateway order id}|{gateway payment id}"`
keyed by the secret's UTF-8 bytes — a byte-for-byte, case-sensitive string
equality.  As a Lean function of those inputs it is pure and deterministic. -/
theorem c5_signature_verifier_spec (secret oidS pidS : String) (claimed : Option String) :
    signatureAccepts secret ⟨some oidS, some pidS, claimed, none⟩ = true ↔
      claimed = some (specHexLowercase (hmacSha256 (utf8Bytes secret)
        (utf8Bytes (oidS ++ "|" ++ pidS)))) := by
  simp [signatureAccepts, jsToString, expectedSignature_eq_spec]

/-! ## C6 -/

/-- Claim C6 is false on the code: with `RAZORPAY_KEY_ID` absent (and the
other secrets present) the endpoint does not return the HTTP 500
configuration error — it probes the gateway, falls back to the signature
comparison, and here answers the 400 signature-mismatch error after updating
the order row. -/
theorem c6_missing_key_id_cex :
    wNoKeyId.env.razorpayKeyId = none ∧
    (verifyHandler (some reqNoSig) wNoKeyId).resp.status = 400 ∧
    (verifyHandler (some reqNoSig) wNoKeyId).fx.probeAttempted = true ∧
    (verifyHandler (some reqNoSig) wNoKeyId).fx.signatureCompared = true ∧
    (verifyHandler (some reqNoSig) wNoKeyId).row = some ⟨"failed", none, "t1"⟩ := by
  decide

/-- Claim C6 (amended): only the gateway key secret is checked up front — its
absence (or emptiness) yields the HTTP 500 configuration error with no probe,
no signature comparison and no update.  A missing gateway key id is not
treated as a configuration error: verification proceeds (probe attempted,
signature fallback run).  Missing database credentials abort before any
side effect but surface as the generic catch-all 500, which is a different
response from the configuration error. -/
theorem c6_config_check_secret_only (w : World) (r : VerifyRequest) :
    (jsTruthy w.env.razorpayKeySecret = false →
      verifyHandler (some r) w = ⟨configErrorResponse, w.row, noEffects⟩) ∧
    (∀ secret, w.env.razorpayKeySecret = some secret → secret ≠ "" →
      jsTruthy w.env.supabaseUrl = true → jsTruthy w.env.supabaseServiceKey = true →
      w.env.razorpayKeyId = none → probeInconclusive w.probe = true →
      (verifyHandler (some r) w).fx = ⟨true, true, true⟩) ∧
    (jsTruthy w.env.razorpayKeySecret = true →
      (jsTruthy w.env.supabaseUrl = false ∨ jsTruthy w.env.supabaseServiceKey = false) →
      verifyHandler (some r) w = ⟨catchAllErrorResponse, w.row, noEffects⟩ ∧
      catchAllErrorResponse ≠ configErrorResponse) := by
  refine ⟨?_, ?_, ?_⟩
  · intro h
    unfold verifyHandler
    rw [h]
    rfl
  · intro secret hs hs' hu hk _ hp
    rw [verifyHandler_fallback w r secret hs hs' hu hk hp]
    exact fallbackVerify_fx secret r w
  · intro h1 h2
    refine ⟨?_, by decide⟩
    unfold verifyHandler
    rw [h1]
    rcases h2 with h | h
    · rw [h]
      rfl
    · rw [h]
      cases hu : jsTruthy w.env.supabaseUrl <;> rfl

/-- Witness for C6's amended theorem at three concrete environments: secret
missing, key id missing, database URL missing. -/
theorem c6_config_check_secret_only_witness :
    verifyHandler (some reqNoSig) wNoSecret = ⟨configErrorResponse, some rowPendingT0, noEffects⟩ ∧
    (verifyHandler (some reqNoSig) wNoKeyId).fx = ⟨true, true, true⟩ ∧
    verifyHandler (some reqNoSig) wNoUrl = ⟨catchAllErrorResponse, some rowPendingT0, noEffects⟩ :=
  ⟨(c6_config_check_secret_only wNoSecret reqNoSig).1 rfl,
   (c6_config_check_secret_only wNoKeyId reqNoSig).2.1 "k" rfl (by decide) rfl rfl rfl rfl,
   ((c6_config_check_secret_only wNoUrl reqNoSig).2.2 rfl (Or.inl rfl)).1⟩

/-! ## C7 -/

/-- Claim C7 is false on the code: a malformed body lands in the catch-all and
yields HTTP 500, not 400; and a request with every required field missing is
not rejected up front — the gateway probe and the order update still run
(under a valid environment with an inconclusive probe the row is even
rewritten to `failed`). -/
theorem c7_invalid_request_cex :
    (verifyHandler none wAmbiguous).resp.status = 500 ∧
    (verifyHandler (some reqAllMissing) wAmbiguous).fx.probeAttempted = true ∧
    (verifyHandler (some reqAllMissing) wAmbiguous).fx.updateAttempted = true ∧
    (verifyHandler (some reqAllMissing) wAmbiguous).row = some ⟨"failed", none, "t1"⟩ := by
  decide

/-- Claim C7 (amended): a malformed body is answered by the catch-all with
HTTP 500 and no side effects (row untouched, no probe, no signature
comparison, no update); missing required fields are never validated — the
request proceeds through the probe, the missing fields are coerced to the
string "undefined" in the signature base, the (necessarily mismatching,
because absent) signature comparison fails, and the order row is updated to
`failed` with a 400 response. -/
theorem c7_no_field_validation (w : World) (secret : String) :
    verifyHandler none w = ⟨catchAllErrorResponse, w.row, noEffects⟩ ∧
    (w.env.razorpayKeySecret = some secret → secret ≠ "" →
      jsTruthy w.env.supabaseUrl = true → jsTruthy w.env.supabaseServiceKey = true →
      probeInconclusive w.probe = true →
      verifyHandler (some ⟨none, none, none, none⟩) w =
        ⟨sigMismatchResponse ⟨none, none, none, none⟩,
         applyUpdate w (failUpdate w.now), ⟨true, true, true⟩⟩) := by
  constructor
  · rfl
  · intro hs hs' hu hk hp
    rw [verifyHandler_fallback w ⟨none, none, none, none⟩ secret hs hs' hu hk hp]
    rfl

/-- Witness for C7's amended theorem at a concrete world. -/
theorem c7_no_field_validation_witness :
    verifyHandler none wAmbiguous = ⟨catchAllErrorResponse, some rowPendingT0, noEffects⟩ ∧
    verifyHandler (some ⟨none, none, none, none⟩) wAmbiguous =
      ⟨sigMismatchResponse ⟨none, none, none, none⟩,
       some ⟨"failed", none, "t1"⟩, ⟨true, true, true⟩⟩ :=
  ⟨(c7_no_field_validation wAmbiguous "k").1,
   (c7_no_field_validation wAmbiguous "k").2 rfl (by decide) rfl rfl rfl⟩

/-! ## C8 -/

/-- Claim C8: when the gateway probe succeeds and reports status `failed` (and
the order row exists and its update succeeds), the endpoint rewrites the row
to `failed`, answers HTTP 400 with the gateway's reported status attached, and
never performs the signature comparison — for every request, whatever
signature it carries. -/
theorem c8_gateway_failed_branch (w : World) (r : VerifyRequest) (o : OrderRow) (secret : String)
    (hs : w.env.razorpayKeySecret = some secret) (hs' : secret ≠ "")
    (hu : jsTruthy w.env.supabaseUrl = true) (hk : jsTruthy w.env.supabaseServiceKey = true)
    (hp : w.probe = ProbeOutcome.ok "failed")
    (hrow : w.row = some o) (hdb : w.dbUpdateFails = false) :
    (verifyHandler (some r) w).row = some { o with
      status := "failed", updated_at := w.now } ∧
    (verifyHandler (some r) w).resp.status = 400 ∧
    (verifyHandler (some r) w).resp.payment_status = some "failed" ∧
    (verifyHandler (some r) w).resp.success = false ∧
    (verifyHandler (some r) w).fx.signatureCompared = false := by
  rw [verifyHandler_gatewayFailed w r secret hs hs' hu hk hp]
  simp [applyUpdate, hdb, hrow, failUpdate, gatewayFailedResponse]

/-- Witness for C8 at a concrete gateway-failed payment whose request carries
some (irrelevant) signature. -/
theorem c8_gateway_failed_branch_witness :
    (verifyHandler (some reqA) wGatewayFailed).row = some { rowPendingT0 with
      status := "failed", updated_at := "t1" } ∧
    (verifyHandler (some reqA) wGatewayFailed).resp.status = 400 ∧
    (verifyHandler (some reqA) wGatewayFailed).fx.signatureCompared = false :=
  ⟨(c8_gateway_failed_branch wGatewayFailed reqA rowPendingT0 "k"
      rfl (by decide) rfl rfl rfl rfl rfl).1,
   (c8_gateway_failed_branch wGatewayFailed reqA rowPendingT0 "k"
      rfl (by decide) rfl rfl rfl rfl rfl).2.1,
   (c8_gateway_failed_branch wGatewayFailed reqA rowPendingT0 "k"
      rfl (by decide) rfl rfl rfl rfl rfl).2.2.2.2⟩

/-! ## C9 -/

/-- Claim C9: the order-creation endpoint answers HTTP 400 and creates no
gateway order whenever the amount is missing, zero, or negative
(`!amount || amount <= 0`, line 20 of `create-razorpay-order/index.ts`). -/
theorem c9_nonpositive_amount_rejected (amount : Option Int) (env : CreateEnv) (g : Bool)
    (h : amount = none ∨ ∃ v, amount = some v ∧ v ≤ 0) :
    (createOrderHandler amount env g).status = 400 ∧
    (createOrderHandler amount env g).orderCreated = false := by
  rcases h with h | ⟨v, hv, hle⟩
  · subst h
    simp [createOrderHandler, jsFalsyNum, jsLeZero]
  · subst hv
    simp [createOrderHandler, jsFalsyNum, jsLeZero, hle]

/-- Witness for C9 at a concrete negative amount. -/
theorem c9_nonpositive_amount_rejected_witness :
    (createOrderHandler (some (-5)) ⟨some "id", some "k"⟩ false).status = 400 ∧
    (createOrderHandler (some (-5)) ⟨some "id", some "k"⟩ false).orderCreated = false :=
  c9_nonpositive_amount_rejected (some (-5)) ⟨some "id", some "k"⟩ false
    (Or.inr ⟨-5, rfl, by decide⟩)

/-! ## C10 -/

/-- Claim C10: the expected signature computed in the fallback branch is
always exactly 64 lowercase hexadecimal characters; consequently any claimed
signature containing an uppercase character, or whose length differs from 64,
fails the comparison. -/
theorem c10_expected_signature_shape (secret oidS pidS claimed : String) :
    ((expectedSignature secret oidS pidS).length = 64 ∧
      ∀ c ∈ (expectedSignature secret oidS pidS).data, c ∈ lowerHexChars) ∧
    ((∃ c ∈ claimed.data, c.isUpper = true) ∨ claimed.length ≠ 64 →
      signatureAccepts secret ⟨some oidS, some pidS, some claimed, none⟩ = false) := by
  refine ⟨⟨expectedSignature_length secret oidS pidS, expectedSignature_chars secret oidS pidS⟩, ?_⟩
  intro h
  by_contra hacc
  rw [Bool.not_eq_false] at hacc
  have hclaimed : claimed = expectedSignature secret oidS pidS := by
    simpa [signatureAccepts, jsToString] using hacc
  rcases h with ⟨c, hc, hup⟩ | hlen
  · have hmem : c ∈ lowerHexChars :=
      expectedSignature_chars secret oidS pidS c (hclaimed ▸ hc)
    have := lowerHex_not_upper c hmem
    rw [hup] at this
    cases this
  · exact hlen (hclaimed ▸ expectedSignature_length secret oidS pidS)

/-- Witness for C10: a claimed signature with an uppercase character is
rejected. -/
theorem c10_expected_signature_shape_witness :
    signatureAccepts "k" ⟨some "ord_A", some "pay_A", some "DEADBEEF", none⟩ = false :=
  (c10_expected_signature_shape "k" "ord_A" "pay_A" "DEADBEEF").2
    (Or.inl ⟨'D', by decide, by decide⟩)
